import Mathlib

/-!
Verification of the caption windowing engine of
`caption_post_processor.py` (classes `CaptionEntry`, `CaptionWindow`,
`CaptionPostProcessor`).

Timestamps and durations are Python floats in the source; they are
embedded as rationals (`ℚ`), on which the source's comparisons
(`<=`, `<`, `>=`) and the addition `start_time + window_duration` are
exact.  The external Gemini model (the summarization oracle) is embedded
as a value of type `Except String String`: `Except.ok text` stands for a
`generate_content` call whose `response.text` is `text`, and
`Except.error e` stands for a call that raises the exception `e`
(caught by the `except` clause of `summarize_window`).
-/

/-- Python `str.strip()` on a character list: drop leading and trailing
whitespace. -/
def stripChars (l : List Char) : List Char :=
  ((l.dropWhile Char.isWhitespace).reverse.dropWhile Char.isWhitespace).reverse

/-- Python `str.strip()`: the string with leading and trailing
whitespace removed. -/
def pyStrip (s : String) : String :=
  { data := stripChars s.data }

/-- CaptionEntry (source lines 19-24): a single caption with timestamp.
The constructor strips the text; `datetime` is a derived display field
and is omitted. -/
structure CaptionEntry where
  text : String
  timestamp : ℚ
deriving DecidableEq

/-- Constructor of CaptionEntry (line 21-24): `self.text = text.strip()`. -/
def CaptionEntry.new (text : String) (timestamp : ℚ) : CaptionEntry :=
  { text := pyStrip text, timestamp := timestamp }

/-- CaptionWindow (source lines 29-36): a time window of captions.
The source initializes `summary` to the placeholder `""` and every
sealing path assigns the real text together with `summarized = True`;
the placeholder is embedded as `none` and an assigned summary as
`some text`. -/
structure CaptionWindow where
  start_time : ℚ
  end_time : ℚ
  captions : List CaptionEntry
  summary : Option String
  summarized : Bool
deriving DecidableEq

/-- Constructor of CaptionWindow (lines 31-36):
`self.end_time = start_time + window_duration`, empty caption list,
no summary, not summarized. -/
def CaptionWindow.new (start_time window_duration : ℚ) : CaptionWindow :=
  { start_time := start_time
    end_time := start_time + window_duration
    captions := []
    summary := none
    summarized := false }

/-- CaptionWindow.add_caption (lines 38-43): append the caption and
return True iff `start_time <= caption.timestamp < end_time`, else
return False leaving the window unchanged.  The pair returns the
updated window (the Python method mutates `self`) and the boolean
result. -/
def CaptionWindow.add_caption (w : CaptionWindow) (caption : CaptionEntry) :
    CaptionWindow × Bool :=
  if w.start_time ≤ caption.timestamp ∧ caption.timestamp < w.end_time then
    ({ w with captions := w.captions ++ [caption] }, true)
  else
    (w, false)

/-- CaptionWindow.is_complete (lines 45-47):
`current_time >= self.end_time`. -/
def CaptionWindow.is_complete (w : CaptionWindow) (current_time : ℚ) : Bool :=
  current_time ≥ w.end_time

/-- CaptionPostProcessor state (lines 62-91): the fields of `__init__`
that the windowing core reads or writes.  Camera, frame bookkeeping and
the Gemini handle are external-collaborator state; `initialize_gemini`
either raises (before any window exists) or leaves a usable model, so
the embedded operations assume a model is present, as every constructed
processor has one. -/
structure CaptionPostProcessor where
  window_duration : ℚ
  current_window : Option CaptionWindow
  completed_windows : List CaptionWindow
deriving DecidableEq

namespace CaptionPostProcessor

/-- CaptionPostProcessor.__init__ (lines 62-91) as a fallible
constructor: it stores `window_duration` unvalidated and performs no
check on it whatsoever; the only exception that can escape is raised by
`initialize_gemini` (external oracle setup, assumed available here), so
construction always succeeds with `current_window = None` and
`completed_windows = []`. -/
def construct (window_duration : ℚ) : Except String CaptionPostProcessor :=
  .ok { window_duration := window_duration
        current_window := none
        completed_windows := [] }

/-- Initial processor state, as set up by `__init__` (lines 81-82). -/
def init (window_duration : ℚ) : CaptionPostProcessor :=
  { window_duration := window_duration
    current_window := none
    completed_windows := [] }

/-- CaptionPostProcessor.summarize_window (lines 208-262).  Guard
`if not self.model or not window.captions` (a model is always present,
see `CaptionPostProcessor`): with no captions, seal with
"No captions to summarize".  Otherwise call the oracle: on success
assign `response.text.strip()`, on exception `e` assign
`"Summary error: " ++ e`; every branch sets `summarized = True`. -/
def summarize_window (w : CaptionWindow) (oracle : Except String String) :
    CaptionWindow :=
  if w.captions.isEmpty then
    { w with summary := some "No captions to summarize", summarized := true }
  else
    match oracle with
    | .ok text => { w with summary := some (pyStrip text), summarized := true }
    | .error e => { w with summary := some ("Summary error: " ++ e), summarized := true }

/-- Body of CaptionPostProcessor.complete_current_window (lines
186-191): summarize the window when it has captions
(`if self.current_window.captions:`), otherwise seal it with the
sentinel "No captions captured". -/
def seal_current (w : CaptionWindow) (oracle : Except String String) :
    CaptionWindow :=
  if w.captions.isEmpty then
    { w with summary := some "No captions captured", summarized := true }
  else
    summarize_window w oracle

/-- CaptionPostProcessor.complete_current_window (lines 181-193): if a
current window exists, seal it per `seal_current` and append it to
`completed_windows`.  The Python object stays referenced by
`self.current_window` after the append, so `current_window` keeps the
sealed window. -/
def complete_current_window (s : CaptionPostProcessor)
    (oracle : Except String String) : CaptionPostProcessor :=
  match s.current_window with
  | none => s
  | some w =>
      let sealed := seal_current w oracle
      { s with
          current_window := some sealed
          completed_windows := s.completed_windows ++ [sealed] }

/-- CaptionPostProcessor.check_window_completion (lines 195-206), the
spec's `tick(now)`: the wall clock read `time.time()` is the explicit
argument `current_time`.  If the current window is complete, complete
it and start ONE new window at the sealed window's `end_time` (the
source has an `if`, not a loop).  The inner match reads
`self.current_window.end_time` after `complete_current_window`, exactly
as line 206 does; the `none` branch is unreachable because completion
keeps a current window. -/
def check_window_completion (s : CaptionPostProcessor) (current_time : ℚ)
    (oracle : Except String String) : CaptionPostProcessor :=
  match s.current_window with
  | none => s
  | some w =>
      if w.is_complete current_time then
        let s1 := complete_current_window s oracle
        match s1.current_window with
        | some w1 =>
            { s1 with
                current_window :=
                  some (CaptionWindow.new w1.end_time s.window_duration) }
        | none => s1
      else s

/-- Caption-ingestion part of the `analyze` closure in
`capture_and_display` (lines 302-315), the spec's `ingest`: build a
`CaptionEntry`, create the first window at the caption's timestamp if
no current window exists, then `add_caption` (its boolean result is
discarded at line 315, so an out-of-range caption is silently
dropped). -/
def ingest (s : CaptionPostProcessor) (description : String) (timestamp : ℚ) :
    CaptionPostProcessor :=
  let caption := CaptionEntry.new description timestamp
  let s1 :=
    match s.current_window with
    | none =>
        { s with
            current_window :=
              some (CaptionWindow.new timestamp s.window_duration) }
    | some _ => s
  match s1.current_window with
  | some w => { s1 with current_window := some (w.add_caption caption).1 }
  | none => s1

/-- Shutdown flush in `run` (lines 394-397), the spec's `drain()`:
`if self.current_window and self.current_window.captions:` summarize
the current window and append it to `completed_windows`; an absent or
empty current window is left untouched (never sealed, never reported). -/
def drain (s : CaptionPostProcessor) (oracle : Except String String) :
    CaptionPostProcessor :=
  match s.current_window with
  | none => s
  | some w =>
      if w.captions.isEmpty then s
      else
        let sealed := summarize_window w oracle
        { s with
            current_window := some sealed
            completed_windows := s.completed_windows ++ [sealed] }

/-- Per-window summary line of print_summary_report (lines 380-383):
`"Summary: " ++ summary` when the window is summarized, the fallback
`"Summary: Not available"` otherwise. -/
def summary_line (w : CaptionWindow) : String :=
  if w.summarized then "Summary: " ++ w.summary.getD "" else "Summary: Not available"

/-- CaptionPostProcessor.print_summary_report (lines 367-384), reduced
to the data it emits: one summary line per completed window, in order. -/
def print_summary_report (s : CaptionPostProcessor) : List String :=
  s.completed_windows.map summary_line

/-- The call `self.process_captions()` at line 392 of `run`: the class
(and the whole module) defines no method or attribute of that name, so
at runtime the attribute lookup raises `AttributeError`. -/
def process_captions (_s : CaptionPostProcessor) :
    Except String CaptionPostProcessor :=
  .error "AttributeError: CaptionPostProcessor object has no attribute process_captions"

/-- Shutdown sequence of CaptionPostProcessor.run (lines 386-400) after
the capture loop exits normally: call `process_captions`, then the
drain lines 394-397, then `print_summary_report`; an exception aborts
the sequence at the point it is raised. -/
def run_shutdown (s : CaptionPostProcessor) (oracle : Except String String) :
    Except String (List String) := do
  let s1 ← process_captions s
  let s2 := drain s1 oracle
  pure (print_summary_report s2)

end CaptionPostProcessor

/-- An event of the main loop: a caption ingested by an analysis task
(lines 302-315) or one poll of `check_window_completion` (line 323)
with the wall-clock value and the oracle outcome used if a window is
sealed. -/
inductive Event where
  | ingest (description : String) (timestamp : ℚ)
  | tick (now : ℚ) (oracle : Except String String)


/-- One step of the main loop. -/
def stepEvent (s : CaptionPostProcessor) : Event → CaptionPostProcessor
  | .ingest d t => s.ingest d t
  | .tick now oracle => s.check_window_completion now oracle

/-- Run a sequence of main-loop events from a state. -/
def runEvents (s : CaptionPostProcessor) (events : List Event) :
    CaptionPostProcessor :=
  events.foldl stepEvent s

/-- All windows of the timeline in chronological order: completed
windows followed by the current window when present. -/
def allWindows (s : CaptionPostProcessor) : List CaptionWindow :=
  s.completed_windows ++ s.current_window.toList

/-! ## Basic facts about the window operations -/

/-- Adding a caption never changes the window's bounds or summary
state, only possibly its caption list. -/
theorem add_caption_preserves (w : CaptionWindow) (c : CaptionEntry) :
    (w.add_caption c).1.start_time = w.start_time ∧
    (w.add_caption c).1.end_time = w.end_time ∧
    (w.add_caption c).1.summary = w.summary ∧
    (w.add_caption c).1.summarized = w.summarized := by
  unfold CaptionWindow.add_caption
  split <;> simp

/-- summarize_window always seals: every branch sets `summarized` and a
summary text, and leaves bounds and captions untouched. -/
theorem summarize_window_fields (w : CaptionWindow) (o : Except String String) :
    (CaptionPostProcessor.summarize_window w o).start_time = w.start_time ∧
    (CaptionPostProcessor.summarize_window w o).end_time = w.end_time ∧
    (CaptionPostProcessor.summarize_window w o).captions = w.captions ∧
    (CaptionPostProcessor.summarize_window w o).summarized = true ∧
    (CaptionPostProcessor.summarize_window w o).summary.isSome = true := by
  unfold CaptionPostProcessor.summarize_window
  cases o <;> split <;> simp

/-- seal_current always seals, and leaves bounds and captions
untouched. -/
theorem seal_current_fields (w : CaptionWindow) (o : Except String String) :
    (CaptionPostProcessor.seal_current w o).start_time = w.start_time ∧
    (CaptionPostProcessor.seal_current w o).end_time = w.end_time ∧
    (CaptionPostProcessor.seal_current w o).captions = w.captions ∧
    (CaptionPostProcessor.seal_current w o).summarized = true ∧
    (CaptionPostProcessor.seal_current w o).summary.isSome = true := by
  unfold CaptionPostProcessor.seal_current
  split
  · simp
  · exact summarize_window_fields w o

/-- Equation for an expired tick: the current window is sealed,
appended, and replaced by a fresh window starting at its end. -/
theorem check_window_completion_expired (s : CaptionPostProcessor)
    (w : CaptionWindow) (now : ℚ) (o : Except String String)
    (hc : s.current_window = some w) (hx : w.is_complete now = true) :
    s.check_window_completion now o =
      { s with
          current_window :=
            some (CaptionWindow.new w.end_time s.window_duration)
          completed_windows :=
            s.completed_windows ++ [CaptionPostProcessor.seal_current w o] } := by
  unfold CaptionPostProcessor.check_window_completion
  unfold CaptionPostProcessor.complete_current_window
  rw [hc]
  simp [hx, (seal_current_fields w o).2.1]

/-- Equation for a non-expired tick: the state is unchanged. -/
theorem check_window_completion_not_expired (s : CaptionPostProcessor)
    (w : CaptionWindow) (now : ℚ) (o : Except String String)
    (hc : s.current_window = some w) (hx : w.is_complete now = false) :
    s.check_window_completion now o = s := by
  unfold CaptionPostProcessor.check_window_completion
  rw [hc]
  simp [hx]

/-- Equation for a tick before the first window exists. -/
theorem check_window_completion_none (s : CaptionPostProcessor)
    (now : ℚ) (o : Except String String) (hc : s.current_window = none) :
    s.check_window_completion now o = s := by
  unfold CaptionPostProcessor.check_window_completion
  rw [hc]

/-! ## The timeline invariant -/

/-- Adjacency relation of the partition: the right window starts exactly
where the left one ends. -/
def nextStart (a b : CaptionWindow) : Prop :=
  b.start_time = a.end_time

/-- Inductive invariant of the processor state, for a processor built
with window duration `d`: completed windows are sealed with a summary
and span exactly `d`; the current window is unsealed and spans exactly
`d`; completed windows are pairwise contiguous; the current window
starts where the last completed one ends; and before the first window
exists nothing has been completed. -/
def TimelineInv (d : ℚ) (s : CaptionPostProcessor) : Prop :=
  s.window_duration = d ∧
  (∀ w ∈ s.completed_windows,
    w.summarized = true ∧ w.summary.isSome = true ∧
    w.end_time = w.start_time + d) ∧
  (∀ w, s.current_window = some w →
    w.summarized = false ∧ w.summary = none ∧
    w.end_time = w.start_time + d) ∧
  List.Chain' nextStart s.completed_windows ∧
  (∀ a, s.completed_windows.getLast? = some a →
    ∀ b, s.current_window = some b → b.start_time = a.end_time) ∧
  (s.current_window = none → s.completed_windows = [])

theorem inv_init (d : ℚ) : TimelineInv d (CaptionPostProcessor.init d) := by
  simp [TimelineInv, CaptionPostProcessor.init]

/-- Equation for ingest before the first window exists: a window is
created at the caption timestamp and the caption offered to it. -/
theorem ingest_none_eq (s : CaptionPostProcessor) (t : String) (ts : ℚ)
    (hc : s.current_window = none) :
    s.ingest t ts =
      { s with
          current_window :=
            some ((CaptionWindow.new ts s.window_duration).add_caption
              (CaptionEntry.new t ts)).1 } := by
  unfold CaptionPostProcessor.ingest
  rw [hc]

/-- Equation for ingest with a current window: the caption is offered
to it (and silently dropped when out of range). -/
theorem ingest_some_eq (s : CaptionPostProcessor) (w : CaptionWindow)
    (t : String) (ts : ℚ) (hc : s.current_window = some w) :
    s.ingest t ts =
      { s with
          current_window := some (w.add_caption (CaptionEntry.new t ts)).1 } := by
  unfold CaptionPostProcessor.ingest
  simp [hc]

theorem inv_ingest (d : ℚ) (s : CaptionPostProcessor) (t : String) (ts : ℚ)
    (h : TimelineInv d s) : TimelineInv d (s.ingest t ts) := by
  obtain ⟨hd, hcomp, hcur, hchain, hlast, hnone⟩ := h
  cases hc : s.current_window with
  | none =>
      have hemp := hnone hc
      rw [ingest_none_eq s t ts hc]
      refine ⟨hd, ?_, ?_, ?_, ?_, ?_⟩ <;>
        (simp [hemp, CaptionWindow.new, CaptionWindow.add_caption, hd]
         try split <;> simp)
  | some w =>
      have hw := hcur w hc
      have hp := add_caption_preserves w (CaptionEntry.new t ts)
      rw [ingest_some_eq s w t ts hc]
      refine ⟨hd, hcomp, ?_, hchain, ?_, ?_⟩
      · intro w' hw'
        simp at hw'
        rw [← hw']
        exact ⟨hp.2.2.2.trans hw.1, hp.2.2.1.trans hw.2.1,
          by rw [hp.2.1, hp.1]; exact hw.2.2⟩
      · intro a ha b hb
        simp at hb
        rw [← hb, hp.1]
        exact hlast a ha w hc
      · intro hnc
        simp at hnc

theorem inv_tick (d : ℚ) (s : CaptionPostProcessor) (now : ℚ)
    (o : Except String String) (h : TimelineInv d s) :
    TimelineInv d (s.check_window_completion now o) := by
  obtain ⟨hd, hcomp, hcur, hchain, hlast, hnone⟩ := h
  cases hc : s.current_window with
  | none =>
      rw [check_window_completion_none s now o hc]
      exact ⟨hd, hcomp, hcur, hchain, hlast, hnone⟩
  | some w =>
      cases hx : w.is_complete now with
      | false =>
          rw [check_window_completion_not_expired s w now o hc hx]
          exact ⟨hd, hcomp, hcur, hchain, hlast, hnone⟩
      | true =>
          rw [check_window_completion_expired s w now o hc hx]
          have hw := hcur w hc
          have hsf := seal_current_fields w o
          refine ⟨hd, ?_, ?_, ?_, ?_, ?_⟩
          · intro w' hw'
            simp at hw'
            rcases hw' with h1 | h2
            · exact hcomp w' h1
            · rw [h2]
              exact ⟨hsf.2.2.2.1, hsf.2.2.2.2,
                by rw [hsf.2.1, hsf.1]; exact hw.2.2⟩
          · intro w' hw'
            simp at hw'
            rw [← hw']
            simp [CaptionWindow.new, hd]
          · rw [List.chain'_append]
            refine ⟨hchain, List.chain'_singleton _, ?_⟩
            intro x hx' y hy'
            simp at hy'
            rw [Option.mem_def] at hx'
            rw [← hy']
            show (CaptionPostProcessor.seal_current w o).start_time = x.end_time
            rw [hsf.1]
            exact hlast x hx' w hc
          · intro a ha b hb
            rw [List.getLast?_concat] at ha
            simp at ha hb
            rw [← ha, ← hb]
            simp [CaptionWindow.new, hsf.2.1]
          · intro hnc
            simp at hnc

theorem inv_stepEvent (d : ℚ) (s : CaptionPostProcessor) (e : Event)
    (h : TimelineInv d s) : TimelineInv d (stepEvent s e) := by
  cases e with
  | ingest t ts => exact inv_ingest d s t ts h
  | tick now o => exact inv_tick d s now o h

theorem inv_runEvents (d : ℚ) (events : List Event) :
    ∀ s, TimelineInv d s → TimelineInv d (runEvents s events) := by
  induction events with
  | nil => intro s h; exact h
  | cons e es ih => intro s h; exact ih _ (inv_stepEvent d s e h)

/-- Every state reachable from a fresh processor by main-loop events
satisfies the timeline invariant. -/
theorem inv_reachable (d : ℚ) (events : List Event) :
    TimelineInv d (runEvents (CaptionPostProcessor.init d) events) :=
  inv_runEvents d events _ (inv_init d)

/-- Any single main-loop event at most appends to the completed list;
it never removes or edits an already-completed window. -/
theorem stepEvent_appends (s : CaptionPostProcessor) (e : Event) :
    ∃ tail, (stepEvent s e).completed_windows =
      s.completed_windows ++ tail := by
  cases e with
  | ingest t ts =>
      simp only [stepEvent]
      cases hc : s.current_window with
      | none => rw [ingest_none_eq s t ts hc]; exact ⟨[], by simp⟩
      | some w => rw [ingest_some_eq s w t ts hc]; exact ⟨[], by simp⟩
  | tick now o =>
      simp only [stepEvent]
      cases hc : s.current_window with
      | none => rw [check_window_completion_none s now o hc]; exact ⟨[], by simp⟩
      | some w =>
          cases hx : w.is_complete now with
          | false =>
              rw [check_window_completion_not_expired s w now o hc hx]
              exact ⟨[], by simp⟩
          | true =>
              rw [check_window_completion_expired s w now o hc hx]
              exact ⟨[CaptionPostProcessor.seal_current w o], rfl⟩

/-- drain either leaves the completed list unchanged (absent or empty
current window) or appends the summarized current window. -/
theorem drain_completed (s : CaptionPostProcessor) (o : Except String String) :
    (CaptionPostProcessor.drain s o).completed_windows = s.completed_windows ∨
    ∃ w, s.current_window = some w ∧ w.captions ≠ [] ∧
      (CaptionPostProcessor.drain s o).completed_windows =
        s.completed_windows ++ [CaptionPostProcessor.summarize_window w o] := by
  unfold CaptionPostProcessor.drain
  cases hc : s.current_window with
  | none => left; rfl
  | some w =>
      by_cases he : w.captions.isEmpty
      · left; simp [he]
      · right
        refine ⟨w, rfl, by simpa using he, ?_⟩
        simp [he]

/-- C3: `add_caption` returns true and appends the caption to the
window's sequence exactly when `start_time <= timestamp < end_time`;
otherwise it returns false and the window is unchanged.  The operation
is a total function, so no error is raised in either case. -/
theorem claim_add_caption_membership (w : CaptionWindow) (c : CaptionEntry) :
    ((w.add_caption c).2 = true ↔
      w.start_time ≤ c.timestamp ∧ c.timestamp < w.end_time) ∧
    ((w.add_caption c).2 = true →
      (w.add_caption c).1 = { w with captions := w.captions ++ [c] }) ∧
    ((w.add_caption c).2 = false → (w.add_caption c).1 = w) := by
  unfold CaptionWindow.add_caption
  split <;> simp_all

/-- Witness for C3: the in-range caption at timestamp 5 of window
[0, 10). -/
theorem claim_add_caption_membership_witness :
    (((CaptionWindow.new 0 10).add_caption ⟨"a", 5⟩).2 = true ↔
      (CaptionWindow.new 0 10).start_time ≤ (⟨"a", 5⟩ : CaptionEntry).timestamp ∧
        (⟨"a", 5⟩ : CaptionEntry).timestamp < (CaptionWindow.new 0 10).end_time) ∧
    (((CaptionWindow.new 0 10).add_caption ⟨"a", 5⟩).2 = true →
      ((CaptionWindow.new 0 10).add_caption ⟨"a", 5⟩).1 =
        { CaptionWindow.new 0 10 with
            captions := (CaptionWindow.new 0 10).captions ++ [⟨"a", 5⟩] }) ∧
    (((CaptionWindow.new 0 10).add_caption ⟨"a", 5⟩).2 = false →
      ((CaptionWindow.new 0 10).add_caption ⟨"a", 5⟩).1 = CaptionWindow.new 0 10) :=
  claim_add_caption_membership (CaptionWindow.new 0 10) ⟨"a", 5⟩

/-- C7: construction performs no validation of the window duration:
with duration 0 or -5 the constructor still succeeds (it succeeds for
every duration), so a non-positive duration is NOT rejected at
construction, contrary to the specified requirement. -/
theorem claim_construct_accepts_nonpositive :
    CaptionPostProcessor.construct 0 =
      .ok { window_duration := 0, current_window := none,
            completed_windows := [] } ∧
    CaptionPostProcessor.construct (-5) =
      .ok { window_duration := -5, current_window := none,
            completed_windows := [] } ∧
    ∀ d : ℚ, ∃ p, CaptionPostProcessor.construct d = .ok p :=
  ⟨rfl, rfl, fun _ => ⟨_, rfl⟩⟩

/-- C9: after the capture loop exits, `run` invokes the undefined
method `process_captions`, so the shutdown sequence always raises
AttributeError; the final-window drain and the summary report are never
reached (`run_shutdown` never returns a report). -/
theorem claim_run_shutdown_attribute_error (s : CaptionPostProcessor)
    (o : Except String String) :
    s.run_shutdown o =
      .error "AttributeError: CaptionPostProcessor object has no attribute process_captions" ∧
    ∀ report, s.run_shutdown o ≠ .ok report := by
  refine ⟨rfl, fun report h => ?_⟩
  simp [CaptionPostProcessor.run_shutdown, CaptionPostProcessor.process_captions] at h

/-- Witness for C9 at a concrete processor state and oracle. -/
theorem claim_run_shutdown_attribute_error_witness :
    (CaptionPostProcessor.init 30).run_shutdown (.ok "x") =
      .error "AttributeError: CaptionPostProcessor object has no attribute process_captions" ∧
    ∀ report, (CaptionPostProcessor.init 30).run_shutdown (.ok "x") ≠ .ok report :=
  claim_run_shutdown_attribute_error (CaptionPostProcessor.init 30) (.ok "x")

/-- C2: in every state reachable by ingest and tick events (so in
particular for any tick sequence with non-decreasing times), the
completed windows followed by the current window form a contiguous,
non-overlapping partition starting at the first window's start: each
consecutive pair satisfies next.start_time = prev.end_time exactly, and
every window spans exactly the configured duration. -/
theorem claim_timeline_partition (d : ℚ) (events : List Event) :
    List.Chain' nextStart
      (allWindows (runEvents (CaptionPostProcessor.init d) events)) ∧
    ∀ w ∈ allWindows (runEvents (CaptionPostProcessor.init d) events),
      w.end_time = w.start_time + d := by
  obtain ⟨hd, hcomp, hcur, hchain, hlast, hnone⟩ := inv_reachable d events
  constructor
  · unfold allWindows
    cases hc : (runEvents (CaptionPostProcessor.init d) events).current_window with
    | none => simpa using hchain
    | some b =>
        rw [List.chain'_append]
        refine ⟨hchain, List.chain'_singleton _, ?_⟩
        intro x hx y hy
        simp at hy
        rw [Option.mem_def] at hx
        rw [← hy]
        exact hlast x hx b hc
  · intro w hw
    unfold allWindows at hw
    rw [List.mem_append] at hw
    rcases hw with h1 | h2
    · exact (hcomp w h1).2.2
    · cases hc : (runEvents (CaptionPostProcessor.init d) events).current_window with
      | none => rw [hc] at h2; simp at h2
      | some b =>
          rw [hc] at h2
          simp at h2
          rw [h2]
          exact (hcur b hc).2.2

/-- Witness for C2 at a concrete run: duration 10, one caption at t=0,
one expired tick at t=12. -/
theorem claim_timeline_partition_witness :
    List.Chain' nextStart
      (allWindows (runEvents (CaptionPostProcessor.init 10)
        [.ingest "a" 0, .tick 12 (.ok "s")])) ∧
    ∀ w ∈ allWindows (runEvents (CaptionPostProcessor.init 10)
        [.ingest "a" 0, .tick 12 (.ok "s")]),
      w.end_time = w.start_time + 10 :=
  claim_timeline_partition 10 [.ingest "a" 0, .tick 12 (.ok "s")]

/-- C4: sealing is at-most-once and permanent: in every reachable
state, each completed window is summarized with an assigned summary;
the current window is never summarized (so `summarized` flips
false→true exactly once, at the step that moves the window into
`completed_windows`); and any further event only appends to
`completed_windows`, leaving every already-sealed window — including
its caption list — unchanged forever. -/
theorem claim_seal_at_most_once (d : ℚ) (events : List Event) (e : Event) :
    (∀ w ∈ (runEvents (CaptionPostProcessor.init d) events).completed_windows,
      w.summarized = true ∧ w.summary.isSome = true) ∧
    (∀ w, (runEvents (CaptionPostProcessor.init d) events).current_window = some w →
      w.summarized = false) ∧
    (∃ tail,
      (stepEvent (runEvents (CaptionPostProcessor.init d) events) e).completed_windows =
        (runEvents (CaptionPostProcessor.init d) events).completed_windows ++ tail) := by
  obtain ⟨hd, hcomp, hcur, hchain, hlast, hnone⟩ := inv_reachable d events
  exact ⟨fun w hw => ⟨(hcomp w hw).1, (hcomp w hw).2.1⟩,
    fun w hw => (hcur w hw).1, stepEvent_appends _ e⟩

/-- Witness for C4 at a concrete run and follow-up event. -/
theorem claim_seal_at_most_once_witness :
    (∀ w ∈ (runEvents (CaptionPostProcessor.init 10)
        [.ingest "a" 0, .tick 12 (.ok "s")]).completed_windows,
      w.summarized = true ∧ w.summary.isSome = true) ∧
    (∀ w, (runEvents (CaptionPostProcessor.init 10)
        [.ingest "a" 0, .tick 12 (.ok "s")]).current_window = some w →
      w.summarized = false) ∧
    (∃ tail,
      (stepEvent (runEvents (CaptionPostProcessor.init 10)
          [.ingest "a" 0, .tick 12 (.ok "s")]) (.tick 25 (.ok "t"))).completed_windows =
        (runEvents (CaptionPostProcessor.init 10)
          [.ingest "a" 0, .tick 12 (.ok "s")]).completed_windows ++ tail) :=
  claim_seal_at_most_once 10 [.ingest "a" 0, .tick 12 (.ok "s")] (.tick 25 (.ok "t"))

/-- C10: every window in `completed_windows` — after any sequence of
main-loop events, optionally followed by the shutdown drain — is
summarized from the moment it is appended, so `summary_line` always
takes its summarized branch and the "Summary: Not available" fallback
of the final report is unreachable. -/
theorem claim_completed_always_summarized (d : ℚ) (events : List Event)
    (o : Except String String) :
    (∀ w ∈ (runEvents (CaptionPostProcessor.init d) events).completed_windows,
      w.summarized = true ∧
      CaptionPostProcessor.summary_line w = "Summary: " ++ w.summary.getD "") ∧
    (∀ w ∈ (CaptionPostProcessor.drain
        (runEvents (CaptionPostProcessor.init d) events) o).completed_windows,
      w.summarized = true ∧
      CaptionPostProcessor.summary_line w = "Summary: " ++ w.summary.getD "") := by
  obtain ⟨hd, hcomp, hcur, hchain, hlast, hnone⟩ := inv_reachable d events
  have hline : ∀ w : CaptionWindow, w.summarized = true →
      CaptionPostProcessor.summary_line w = "Summary: " ++ w.summary.getD "" := by
    intro w hw
    simp [CaptionPostProcessor.summary_line, hw]
  constructor
  · intro w hw
    exact ⟨(hcomp w hw).1, hline w (hcomp w hw).1⟩
  · intro w hw
    rcases drain_completed (runEvents (CaptionPostProcessor.init d) events) o with
      heq | ⟨w', hc', hne', heq⟩
    · rw [heq] at hw
      exact ⟨(hcomp w hw).1, hline w (hcomp w hw).1⟩
    · rw [heq] at hw
      rw [List.mem_append] at hw
      rcases hw with h1 | h2
      · exact ⟨(hcomp w h1).1, hline w (hcomp w h1).1⟩
      · simp at h2
        rw [h2]
        have := (summarize_window_fields w' o).2.2.2.1
        exact ⟨this, hline _ this⟩

/-- Witness for C10 at a concrete run with a nonempty current window
drained at shutdown. -/
theorem claim_completed_always_summarized_witness :
    (∀ w ∈ (runEvents (CaptionPostProcessor.init 10)
        [.ingest "a" 0, .tick 12 (.ok "s"), .ingest "b" 13]).completed_windows,
      w.summarized = true ∧
      CaptionPostProcessor.summary_line w = "Summary: " ++ w.summary.getD "") ∧
    (∀ w ∈ (CaptionPostProcessor.drain
        (runEvents (CaptionPostProcessor.init 10)
          [.ingest "a" 0, .tick 12 (.ok "s"), .ingest "b" 13]) (.error "boom")).completed_windows,
      w.summarized = true ∧
      CaptionPostProcessor.summary_line w = "Summary: " ++ w.summary.getD "") :=
  claim_completed_always_summarized 10
    [.ingest "a" 0, .tick 12 (.ok "s"), .ingest "b" 13] (.error "boom")

/-- C5 counterexample: in the run with duration 10, a caption at t=0, a
tick at t=10 and a tick at t=20, the window [10,20) expires with zero
captions and is sealed with the sentinel "No captions captured" — not
with "no activity observed in this window" as claimed. -/
theorem claim_empty_window_sentinel_counterexample :
    (((runEvents (CaptionPostProcessor.init 10)
        [.ingest "a" 0, .tick 10 (.ok "x"), .tick 20 (.ok "y")]).completed_windows.map
      (fun w => (w.start_time, w.end_time, w.captions.length, w.summary))).getLast?
      = some (10, 20, 0, some "No captions captured")) ∧
    "No captions captured" ≠ "no activity observed in this window" := by
  constructor
  · norm_num [runEvents, stepEvent, CaptionPostProcessor.init,
      CaptionPostProcessor.ingest, CaptionPostProcessor.check_window_completion,
      CaptionPostProcessor.complete_current_window, CaptionPostProcessor.seal_current,
      CaptionPostProcessor.summarize_window, CaptionWindow.new,
      CaptionWindow.add_caption, CaptionWindow.is_complete, CaptionEntry.new]
  · decide

/-- C5 (amended): a window that expires with zero captions is sealed
with the fixed sentinel "No captions captured" (the source's sentinel,
not the claimed wording), and the oracle is never invoked: the tick
result is independent of the oracle outcome. -/
theorem claim_empty_window_sealed_without_oracle (s : CaptionPostProcessor)
    (w : CaptionWindow) (now : ℚ) (o o2 : Except String String)
    (hc : s.current_window = some w) (he : w.captions = [])
    (hx : w.is_complete now = true) :
    (s.check_window_completion now o).completed_windows =
      s.completed_windows ++
        [{ w with summary := some "No captions captured", summarized := true }] ∧
    s.check_window_completion now o = s.check_window_completion now o2 := by
  have hseal : ∀ oo : Except String String,
      CaptionPostProcessor.seal_current w oo =
        { w with summary := some "No captions captured", summarized := true } := by
    intro oo
    unfold CaptionPostProcessor.seal_current
    simp [he]
  constructor
  · rw [check_window_completion_expired s w now o hc hx, hseal o]
  · rw [check_window_completion_expired s w now o hc hx,
      check_window_completion_expired s w now o2 hc hx, hseal o, hseal o2]

/-- Witness for C5 (amended): the empty window [10,20) expiring at
t=20, with two different oracle outcomes. -/
theorem claim_empty_window_sealed_without_oracle_witness :
    (CaptionPostProcessor.check_window_completion
        ⟨10, some ⟨10, 20, [], none, false⟩, []⟩ 20 (.ok "x")).completed_windows =
      (⟨10, some ⟨10, 20, [], none, false⟩, []⟩ :
          CaptionPostProcessor).completed_windows ++
        [{ (⟨10, 20, [], none, false⟩ : CaptionWindow) with
            summary := some "No captions captured", summarized := true }] ∧
    CaptionPostProcessor.check_window_completion
        ⟨10, some ⟨10, 20, [], none, false⟩, []⟩ 20 (.ok "x") =
      CaptionPostProcessor.check_window_completion
        ⟨10, some ⟨10, 20, [], none, false⟩, []⟩ 20 (.error "boom") :=
  claim_empty_window_sealed_without_oracle _ _ 20 (.ok "x") (.error "boom")
    rfl rfl (by decide)

/-- C6: when the oracle raises on a non-empty expired window, the
window is still sealed — summarized with the error-marker summary
"Summary error: ..." — and rollover still happens: the next window
starts at the sealed window's end, so the timeline keeps operating. -/
theorem claim_oracle_failure_isolated (s : CaptionPostProcessor)
    (w : CaptionWindow) (e : String) (now : ℚ)
    (hc : s.current_window = some w) (hne : w.captions ≠ [])
    (hx : w.is_complete now = true) :
    (s.check_window_completion now (.error e)).completed_windows =
      s.completed_windows ++
        [{ w with summary := some ("Summary error: " ++ e), summarized := true }] ∧
    (s.check_window_completion now (.error e)).current_window =
      some (CaptionWindow.new w.end_time s.window_duration) := by
  have hseal : CaptionPostProcessor.seal_current w (.error e) =
      { w with summary := some ("Summary error: " ++ e), summarized := true } := by
    unfold CaptionPostProcessor.seal_current CaptionPostProcessor.summarize_window
    simp [hne]
  rw [check_window_completion_expired s w now (.error e) hc hx, hseal]
  exact ⟨rfl, rfl⟩

/-- Witness for C6: oracle exception "boom" on the non-empty window
[0,10) expiring at t=12. -/
theorem claim_oracle_failure_isolated_witness :
    (CaptionPostProcessor.check_window_completion
        ⟨10, some ⟨0, 10, [⟨"a", 5⟩], none, false⟩, []⟩ 12
        (.error "boom")).completed_windows =
      (⟨10, some ⟨0, 10, [⟨"a", 5⟩], none, false⟩, []⟩ :
          CaptionPostProcessor).completed_windows ++
        [{ (⟨0, 10, [⟨"a", 5⟩], none, false⟩ : CaptionWindow) with
            summary := some ("Summary error: " ++ "boom"), summarized := true }] ∧
    (CaptionPostProcessor.check_window_completion
        ⟨10, some ⟨0, 10, [⟨"a", 5⟩], none, false⟩, []⟩ 12
        (.error "boom")).current_window =
      some (CaptionWindow.new
        ((⟨0, 10, [⟨"a", 5⟩], none, false⟩ : CaptionWindow)).end_time 10) :=
  claim_oracle_failure_isolated _ _ "boom" 12 rfl (by decide) (by decide)

/-- C8: the shutdown drain seals the current window immediately — no
expiry condition is required — with exactly the captions it holds, and
moves it to `completed_windows`, when it holds at least one caption;
with zero captions the current window is left unsealed and is not
added to `completed_windows` (it is discarded: the final report reads
only `completed_windows`). -/
theorem claim_drain_flush (s : CaptionPostProcessor) (w : CaptionWindow)
    (o : Except String String) (hc : s.current_window = some w) :
    (w.captions = [] → CaptionPostProcessor.drain s o = s) ∧
    (w.captions ≠ [] →
      (CaptionPostProcessor.drain s o).completed_windows =
        s.completed_windows ++ [CaptionPostProcessor.summarize_window w o] ∧
      (CaptionPostProcessor.summarize_window w o).captions = w.captions ∧
      (CaptionPostProcessor.summarize_window w o).summarized = true ∧
      (CaptionPostProcessor.summarize_window w o).summary.isSome = true ∧
      (CaptionPostProcessor.summarize_window w o).start_time = w.start_time ∧
      (CaptionPostProcessor.summarize_window w o).end_time = w.end_time) := by
  have hf := summarize_window_fields w o
  constructor
  · intro he
    unfold CaptionPostProcessor.drain
    rw [hc]
    simp [he]
  · intro hne
    refine ⟨?_, hf.2.2.1, hf.2.2.2.1, hf.2.2.2.2, hf.1, hf.2.1⟩
    unfold CaptionPostProcessor.drain
    rw [hc]
    simp [hne]

/-- Witness for C8: drain with two unflushed captions in the current
window [0,30) before its natural expiry, and with an empty current
window. -/
theorem claim_drain_flush_witness :
    (((⟨"a", 5⟩ : CaptionEntry) :: [⟨"b", 12⟩]) = [] →
      CaptionPostProcessor.drain
        ⟨30, some ⟨0, 30, [⟨"a", 5⟩, ⟨"b", 12⟩], none, false⟩, []⟩ (.ok "sum") =
        ⟨30, some ⟨0, 30, [⟨"a", 5⟩, ⟨"b", 12⟩], none, false⟩, []⟩) ∧
    (((⟨"a", 5⟩ : CaptionEntry) :: [⟨"b", 12⟩]) ≠ [] →
      (CaptionPostProcessor.drain
        ⟨30, some ⟨0, 30, [⟨"a", 5⟩, ⟨"b", 12⟩], none, false⟩, []⟩
        (.ok "sum")).completed_windows =
        (⟨30, some ⟨0, 30, [⟨"a", 5⟩, ⟨"b", 12⟩], none, false⟩, []⟩ :
            CaptionPostProcessor).completed_windows ++
          [CaptionPostProcessor.summarize_window
            ⟨0, 30, [⟨"a", 5⟩, ⟨"b", 12⟩], none, false⟩ (.ok "sum")] ∧
      (CaptionPostProcessor.summarize_window
        ⟨0, 30, [⟨"a", 5⟩, ⟨"b", 12⟩], none, false⟩ (.ok "sum")).captions =
        [⟨"a", 5⟩, ⟨"b", 12⟩] ∧
      (CaptionPostProcessor.summarize_window
        ⟨0, 30, [⟨"a", 5⟩, ⟨"b", 12⟩], none, false⟩ (.ok "sum")).summarized = true ∧
      (CaptionPostProcessor.summarize_window
        ⟨0, 30, [⟨"a", 5⟩, ⟨"b", 12⟩], none, false⟩ (.ok "sum")).summary.isSome = true ∧
      (CaptionPostProcessor.summarize_window
        ⟨0, 30, [⟨"a", 5⟩, ⟨"b", 12⟩], none, false⟩ (.ok "sum")).start_time = 0 ∧
      (CaptionPostProcessor.summarize_window
        ⟨0, 30, [⟨"a", 5⟩, ⟨"b", 12⟩], none, false⟩ (.ok "sum")).end_time = 30) :=
  claim_drain_flush ⟨30, some ⟨0, 30, [⟨"a", 5⟩, ⟨"b", 12⟩], none, false⟩, []⟩
    ⟨0, 30, [⟨"a", 5⟩, ⟨"b", 12⟩], none, false⟩ (.ok "sum") rfl

/-- C1 counterexample: with duration 10, a caption at t=0 and a single
tick(35), the source's `check_window_completion` seals only ONE window
([0,10)) and leaves [10,20) — still expired at t=35 — as current; it
does not repeat sealing until the current window covers t=35, so the
claimed final state (completed [0,10),[10,20),[20,30) and current
[30,40)) does not hold. -/
theorem claim_tick_catchup_counterexample :
    ((runEvents (CaptionPostProcessor.init 10)
        [.ingest "a" 0, .tick 35 (.ok "s")]).current_window.map
      (fun w => (w.start_time, w.end_time))) = some (10, 20) ∧
    (runEvents (CaptionPostProcessor.init 10)
        [.ingest "a" 0, .tick 35 (.ok "s")]).completed_windows.length = 1 ∧
    ¬ (((runEvents (CaptionPostProcessor.init 10)
          [.ingest "a" 0, .tick 35 (.ok "s")]).completed_windows.map
        (fun w => (w.start_time, w.end_time))) = [(0, 10), (10, 20), (20, 30)] ∧
      ((runEvents (CaptionPostProcessor.init 10)
          [.ingest "a" 0, .tick 35 (.ok "s")]).current_window.map
        (fun w => (w.start_time, w.end_time))) = some (30, 40)) := by
  refine ⟨?_, ?_, ?_⟩ <;>
    norm_num [runEvents, stepEvent, CaptionPostProcessor.init,
      CaptionPostProcessor.ingest, CaptionPostProcessor.check_window_completion,
      CaptionPostProcessor.complete_current_window, CaptionPostProcessor.seal_current,
      CaptionPostProcessor.summarize_window, CaptionWindow.new,
      CaptionWindow.add_caption, CaptionWindow.is_complete, CaptionEntry.new]

/-- C1 (amended): a single tick call performs at most one
seal-and-rollover: it seals the expired current window and starts the
next window at that window's end (not at `now`).  The scenario's
multi-window catch-up is achieved by repeated tick calls — the source
polls `check_window_completion` once per frame — one call per expired
window: with duration 10, a caption at t=0 and three tick(35) calls,
windows [0,10), [10,20), [20,30) are sealed in that order (the last
two empty) and [30,40) is left current, no longer expired at t=35. -/
theorem claim_tick_single_rollover (s : CaptionPostProcessor)
    (w : CaptionWindow) (now : ℚ) (o : Except String String)
    (hc : s.current_window = some w) (hx : w.is_complete now = true) :
    s.check_window_completion now o =
      { s with
          current_window := some (CaptionWindow.new w.end_time s.window_duration)
          completed_windows :=
            s.completed_windows ++ [CaptionPostProcessor.seal_current w o] } ∧
    (CaptionPostProcessor.seal_current w o).summarized = true ∧
    ((runEvents (CaptionPostProcessor.init 10)
        [.ingest "a" 0, .tick 35 o, .tick 35 o, .tick 35 o]).completed_windows.map
      (fun v => (v.start_time, v.end_time, v.summarized))) =
      [(0, 10, true), (10, 20, true), (20, 30, true)] ∧
    ((runEvents (CaptionPostProcessor.init 10)
        [.ingest "a" 0, .tick 35 o, .tick 35 o, .tick 35 o]).current_window.map
      (fun v => (v.start_time, v.end_time, v.is_complete 35))) =
      some (30, 40, false) := by
  refine ⟨check_window_completion_expired s w now o hc hx,
    (seal_current_fields w o).2.2.2.1, ?_, ?_⟩ <;>
    rcases o with t | e <;>
    norm_num [runEvents, stepEvent, CaptionPostProcessor.init,
      CaptionPostProcessor.ingest, CaptionPostProcessor.check_window_completion,
      CaptionPostProcessor.complete_current_window, CaptionPostProcessor.seal_current,
      CaptionPostProcessor.summarize_window, CaptionWindow.new,
      CaptionWindow.add_caption, CaptionWindow.is_complete, CaptionEntry.new]

/-- Witness for C1 (amended): the expired empty window [0,10) ticked at
t=35 with a successful oracle. -/
theorem claim_tick_single_rollover_witness :
    CaptionPostProcessor.check_window_completion
        ⟨10, some ⟨0, 10, [], none, false⟩, []⟩ 35 (.ok "s") =
      { (⟨10, some ⟨0, 10, [], none, false⟩, []⟩ : CaptionPostProcessor) with
          current_window :=
            some (CaptionWindow.new
              ((⟨0, 10, [], none, false⟩ : CaptionWindow)).end_time 10)
          completed_windows :=
            [] ++ [CaptionPostProcessor.seal_current
              ⟨0, 10, [], none, false⟩ (.ok "s")] } ∧
    (CaptionPostProcessor.seal_current
      ⟨0, 10, [], none, false⟩ (.ok "s")).summarized = true ∧
    ((runEvents (CaptionPostProcessor.init 10)
        [.ingest "a" 0, .tick 35 (.ok "s"), .tick 35 (.ok "s"),
          .tick 35 (.ok "s")]).completed_windows.map
      (fun v => (v.start_time, v.end_time, v.summarized))) =
      [(0, 10, true), (10, 20, true), (20, 30, true)] ∧
    ((runEvents (CaptionPostProcessor.init 10)
        [.ingest "a" 0, .tick 35 (.ok "s"), .tick 35 (.ok "s"),
          .tick 35 (.ok "s")]).current_window.map
      (fun v => (v.start_time, v.end_time, v.is_complete 35))) =
      some (30, 40, false) :=
  claim_tick_single_rollover ⟨10, some ⟨0, 10, [], none, false⟩, []⟩
    ⟨0, 10, [], none, false⟩ 35 (.ok "s") rfl (by decide)
